import Mathlib

set_option maxHeartbeats 1000000
set_option maxRecDepth 100000

/-!
Shallow embedding of the serialfinder device-discovery engines.

The repository enumerates USB serial devices per platform:
  * Linux  (`getSerialDevicesWithReader`, serialfinder_linux.go): walks the
    /dev/serial/by-id symlink directory through an abstract `fileSystemReader`;
  * macOS  (`getSerialDevicesWithExecutor`, serialfinder_darwin.go): parses the
    text output of `ioreg -r -c IOSerialBSDClient -l` line by line;
  * Windows (`getSerialDevicesWithRegistry`, serialfinder_windows.go): walks a
    registry subtree through an abstract `registryHandler` and probes ports.

The OS interfaces (filesystem reader, command executor, registry handler,
port checker) are modelled as explicit function-valued records, exactly the
interfaces the Go code itself abstracts over for its tests.  Go library
functions used by the code (strings.ToUpper, strings.TrimSpace,
strings.TrimSuffix, strings.Contains, filepath.Clean/Join/Base/Dir,
strconv.ParseInt, fmt.Sprintf %04X, bufio line scanning, and the two regular
expressions) are given executable Lean models; string operations are modelled
on the ASCII range, which covers every value the engines manipulate
(hex identifiers, registry paths, sysfs paths, ioreg property lines).
A Go runtime panic (string-slice bounds violation) is modelled as an
explicit error value, never as a silently total function.
-/

/-- Output record of every discovery engine: the Go struct
`SerialDeviceInfo { SerialNumber, Vid, Pid, Port string }`. -/
structure SerialDeviceInfo where
  SerialNumber : String
  Vid : String
  Pid : String
  Port : String
deriving DecidableEq, Repr

/-- The Go zero value `SerialDeviceInfo{}` (all fields empty). -/
def SerialDeviceInfo.zero : SerialDeviceInfo :=
  { SerialNumber := "", Vid := "", Pid := "", Port := "" }

/-! ### Models of the Go standard-library string functions -/

/-- `unicode.IsSpace` as used by `strings.TrimSpace`, on the Latin-1 range
(space, tab, newline, vertical tab, form feed, carriage return, NEL, NBSP). -/
def isGoSpace (c : Char) : Bool :=
  c = ' ' ∨ c = '\t' ∨ c = '\n' ∨ c = '\x0b' ∨ c = '\x0c' ∨ c = '\r' ∨
    c = '\u0085' ∨ c = ' '

/-- RE2 character class `\s`, exactly `[\t\n\f\r ]`. -/
def isReSpace (c : Char) : Bool :=
  c = '\t' ∨ c = '\n' ∨ c = '\x0c' ∨ c = '\r' ∨ c = ' '

/-- Whether the first list is a prefix of the second (Boolean). -/
def listIsPrefixOf : List Char → List Char → Bool
  | [], _ => true
  | _ :: _, [] => false
  | p :: ps, c :: cs => p = c && listIsPrefixOf ps cs

/-- `strings.HasPrefix s pre`. -/
def goHasPrefix (s pre : String) : Bool :=
  listIsPrefixOf pre.data s.data

/-- `strings.HasSuffix s suf`. -/
def goHasSuffix (s suf : String) : Bool :=
  listIsPrefixOf suf.data.reverse s.data.reverse

/-- Helper for `goContains`: does `pat` occur in the list (at any position)? -/
def containsAux (pat : List Char) : List Char → Bool
  | [] => listIsPrefixOf pat []
  | l@(_ :: rest) => listIsPrefixOf pat l || containsAux pat rest

/-- `strings.Contains s sub`. -/
def goContains (s sub : String) : Bool :=
  containsAux sub.data s.data

/-- ASCII upper-casing of one character (`strings.ToUpper` acts per rune;
all data handled by the engines is ASCII). -/
def upChar (c : Char) : Char :=
  if 'a' ≤ c ∧ c ≤ 'z' then Char.ofNat (c.toNat - 32) else c

/-- `strings.ToUpper` (ASCII range). -/
def goToUpper (s : String) : String :=
  String.mk (s.data.map upChar)

/-- `strings.TrimSpace`. -/
def goTrimSpace (s : String) : String :=
  String.mk (((s.data.dropWhile isGoSpace).reverse.dropWhile isGoSpace).reverse)

/-- `strings.TrimSuffix s suf` (removes one trailing copy of `suf`). -/
def goTrimSuffix (s suf : String) : String :=
  if goHasSuffix s suf then String.mk (s.data.take (s.data.length - suf.data.length))
  else s

/-- The Go string slice `s[n:]` (byte indexing; ASCII data, so chars). -/
def goDropChars (n : Nat) (s : String) : String :=
  String.mk (s.data.drop n)

/-! ### Model of `path/filepath` (Unix separator) -/

/-- Split a character list on a separator character (segments between
separators; `n` separators give `n+1` segments). -/
def splitChar (sep : Char) : List Char → List (List Char)
  | [] => [[]]
  | c :: rest =>
    if c = sep then [] :: splitChar sep rest
    else
      match splitChar sep rest with
      | [] => [[c]]
      | h :: t => (c :: h) :: t

/-- The segment-processing loop of `filepath.Clean`: drop empty and `.`
segments, resolve `..` against the accumulated prefix. -/
def cleanFold (rooted : Bool) : List (List Char) → List (List Char) → List (List Char)
  | acc, [] => acc.reverse
  | acc, seg :: rest =>
    if seg = [] ∨ seg = ['.'] then cleanFold rooted acc rest
    else if seg = ['.', '.'] then
      match acc with
      | [] => if rooted then cleanFold rooted [] rest
              else cleanFold rooted [['.', '.']] rest
      | top :: acc2 =>
        if top = ['.', '.'] then cleanFold rooted (seg :: acc) rest
        else cleanFold rooted acc2 rest
    else cleanFold rooted (seg :: acc) rest

/-- Join segments with `/`. -/
def joinSlash : List (List Char) → List Char
  | [] => []
  | [s] => s
  | s :: rest => s ++ '/' :: joinSlash rest

/-- `filepath.Clean` (Unix rules), via its standard segment semantics. -/
def goClean (s : String) : String :=
  match s.data with
  | [] => "."
  | c :: rest =>
    let rooted := c = '/'
    let segs := splitChar '/' (c :: rest)
    let out := cleanFold rooted [] segs
    if rooted then String.mk ('/' :: joinSlash out)
    else if out = [] then "." else String.mk (joinSlash out)

/-- `filepath.Join(a, b)` for a nonempty first element: `Clean(a + "/" + b)`. -/
def goJoin2 (a b : String) : String :=
  goClean (String.mk (a.data ++ '/' :: b.data))

/-- `filepath.Join(a, b, c)` for a nonempty first element. -/
def goJoin3 (a b c : String) : String :=
  goClean (String.mk (a.data ++ '/' :: b.data ++ '/' :: c.data))

/-- Drop trailing `/` characters. -/
def dropTrailingSlashes (l : List Char) : List Char :=
  (l.reverse.dropWhile (fun c => c = '/')).reverse

/-- Everything after the last `/` (the whole list when there is none). -/
def afterLastSlash (l : List Char) : List Char :=
  (l.reverse.takeWhile (fun c => ¬ c = '/')).reverse

/-- Everything up to and including the last `/` (empty when there is none). -/
def upToLastSlash (l : List Char) : List Char :=
  (l.reverse.dropWhile (fun c => ¬ c = '/')).reverse

/-- `filepath.Base` (Unix rules). -/
def goBase (s : String) : String :=
  match s.data with
  | [] => "."
  | l =>
    let l2 := dropTrailingSlashes l
    if l2 = [] then "/" else String.mk (afterLastSlash l2)

/-- `filepath.Dir` (Unix rules): `Clean` of the part before the final element. -/
def goDir (s : String) : String :=
  goClean (String.mk (upToLastSlash s.data))

/-! ### Model of `bufio.Scanner` with `ScanLines` -/

/-- Split on newline characters. -/
def splitNewline : List Char → List (List Char)
  | [] => [[]]
  | c :: rest =>
    if c = '\n' then [] :: splitNewline rest
    else
      match splitNewline rest with
      | [] => [[c]]
      | h :: t => (c :: h) :: t

/-- Strip one trailing carriage return (`dropCR` of `bufio.ScanLines`). -/
def dropCR (l : List Char) : List Char :=
  match l.reverse with
  | '\r' :: r => r.reverse
  | _ => l

/-- The token sequence produced by `bufio.Scanner` with `ScanLines`:
no token for empty input, final token emitted even without a trailing
newline, one trailing `\r` stripped per line. -/
def goLines (s : String) : List String :=
  match s.data with
  | [] => []
  | l =>
    let parts := splitNewline l
    let parts := if l.getLast? = some '\n' then parts.dropLast else parts
    parts.map (fun p => String.mk (dropCR p))

/-! ### Model of `strconv.ParseInt` and `fmt.Sprintf "%04X"` -/

/-- Value of one digit character in the given base (as in `strconv`). -/
def digitVal (base : Nat) (c : Char) : Option Nat :=
  let v : Option Nat :=
    if '0' ≤ c ∧ c ≤ '9' then some (c.toNat - 48)
    else if 'a' ≤ c ∧ c ≤ 'z' then some (c.toNat - 97 + 10)
    else if 'A' ≤ c ∧ c ≤ 'Z' then some (c.toNat - 65 + 10)
    else none
  match v with
  | some d => if d < base then some d else none
  | none => none

/-- Accumulate digit values; `none` on any non-digit. -/
def digitsValAux (base : Nat) : List Char → Nat → Option Nat
  | [], acc => some acc
  | c :: rest, acc =>
    match digitVal base c with
    | none => none
    | some d => digitsValAux base rest (acc * base + d)

/-- `strconv.ParseInt(s, base, 64)`: optional sign, at least one digit,
64-bit range check; `none` models a non-nil error. -/
def goParseInt (base : Nat) (s : String) : Option Int :=
  match s.data with
  | [] => none
  | c :: rest =>
    let signedDigits : Bool × List Char :=
      if c = '+' then (false, rest)
      else if c = '-' then (true, rest)
      else (false, c :: rest)
    match signedDigits.2 with
    | [] => none
    | digits =>
      match digitsValAux base digits 0 with
      | none => none
      | some n =>
        let v : Int := if signedDigits.1 then -(n : Int) else (n : Int)
        if v < -(2 ^ 63) ∨ (2 ^ 63 - 1 : Int) < v then none else some v

/-- Upper-case hexadecimal digit character for a value below 16. -/
def hexDigitChar (n : Nat) : Char :=
  if n < 10 then Char.ofNat (48 + n) else Char.ofNat (65 + (n - 10))

/-- Upper-case hexadecimal digits of `n` (fuel-structured so that it reduces
definitionally; 64 units of fuel cover every 64-bit value). -/
def natHexChars : Nat → Nat → List Char
  | 0, _ => []
  | fuel + 1, n =>
    if n < 16 then [hexDigitChar n]
    else natHexChars fuel (n / 16) ++ [hexDigitChar (n % 16)]

/-- Left-pad with `'0'` to the given width. -/
def padZeros (w : Nat) (l : List Char) : List Char :=
  List.replicate (w - l.length) '0' ++ l

/-- `fmt.Sprintf("%04X", n)` for an `int64` argument: upper-case hex,
zero-padded to width 4 (the sign occupies one column for negatives). -/
def sprintf04X (n : Int) : String :=
  if 0 ≤ n then String.mk (padZeros 4 (natHexChars 64 n.toNat))
  else String.mk ('-' :: padZeros 3 (natHexChars 64 (-n).toNat))

/-! ### The macOS engine (serialfinder_darwin.go, executor version) -/

/-- A Go runtime panic reachable in the parser: the string slice
`value[1 : len(value)-1]` in `parseStringValue` with `low > high`. -/
inductive GoPanic where
  | sliceBounds
deriving DecidableEq, Repr

/-- `parseHexValue` (serialfinder_darwin.go): trim space, strip one trailing
comma, parse hexadecimal exactly when a `0x`/`0X` prefix is present and
decimal otherwise. `none` models a non-nil error. -/
def parseHexValue (value : String) : Option Int :=
  let value1 := goTrimSpace value
  let value2 := goTrimSuffix value1 ","
  if goHasPrefix value2 "0x" ∨ goHasPrefix value2 "0X" then
    goParseInt 16 (goDropChars 2 value2)
  else
    goParseInt 10 value2

/-- `parseStringValue` (serialfinder_darwin.go): trim space, strip one
trailing comma, then strip one layer of surrounding quotes via the Go slice
`value[1 : len(value)-1]`.  When the trimmed value is the single character
`"` both the prefix and the suffix check succeed and the slice bounds are
`[1:0]`, a Go runtime panic, modelled as `none`. -/
def parseStringValue (value : String) : Option String :=
  let value1 := goTrimSpace value
  let value2 := goTrimSuffix value1 ","
  if goHasPrefix value2 "\"" ∧ goHasSuffix value2 "\"" then
    if 2 ≤ value2.data.length then
      some (String.mk ((value2.data.drop 1).dropLast))
    else none
  else some value2

/-- Attempt of the regex `"([^"]+)"` at a position whose opening quote has
been consumed: the key is the maximal nonempty run of non-quote characters,
which must be followed by a closing quote. -/
def grabKey (l : List Char) : Option (List Char × List Char) :=
  let key := l.takeWhile (fun c => ¬ c = '"')
  match key, l.dropWhile (fun c => ¬ c = '"') with
  | [], _ => none
  | _, '"' :: after => some (key, after)
  | _, _ => none

/-- The `\s*=\s*` part of the key/value regex: skip RE2 whitespace, require
`=`, skip RE2 whitespace; returns the remaining characters (the `(.*)`
capture group). -/
def skipEqAfter (l : List Char) : Option (List Char) :=
  match l.dropWhile isReSpace with
  | '=' :: rest => some (rest.dropWhile isReSpace)
  | _ => none

/-- Leftmost match of `regexp.MustCompile("\x22([^\x22]+)\x22\\s*=\\s*(.*)")`
(`FindStringSubmatch`), returning the two capture groups. -/
def findKeyValueAux : List Char → Option (String × String)
  | [] => none
  | '"' :: rest =>
    (match grabKey rest with
     | some (key, after) =>
       match skipEqAfter after with
       | some valueChars => some (String.mk key, String.mk valueChars)
       | none => findKeyValueAux rest
     | none => findKeyValueAux rest)
  | _ :: rest => findKeyValueAux rest

/-- `reKeyValue.FindStringSubmatch` on a line. -/
def findKeyValue (line : String) : Option (String × String) :=
  findKeyValueAux line.data

/-- Parser state of `getSerialDevicesWithExecutor`: the current USB device
context (`currentUSBDevice`, `nil` modelled as `none`) and the accumulated
device list. -/
structure DarwinState where
  current : Option SerialDeviceInfo
  devices : List SerialDeviceInfo
deriving DecidableEq, Repr

/-- One iteration of the scanner loop of `getSerialDevicesWithExecutor`
(serialfinder_darwin.go, executor version): trim the line, handle `+-o`
block headers, apply the key/value regex, update the current USB context
(idVendor / idProduct / the two serial-number keys), and on
`IOCalloutDevice` emit a record when the context has both Vid and Pid, the
callout path is nonempty, and the (already upper-cased) filters match. -/
def darwinStep (targetVidUpper targetPidUpper : String) (st : DarwinState)
    (rawLine : String) : Except GoPanic DarwinState :=
  let line := goTrimSpace rawLine
  let cur0 : Option SerialDeviceInfo :=
    if goHasPrefix line "+-o" then
      if goContains line "IOUSBDevice" ∨ goContains line "IOUSBHostDevice" then
        some SerialDeviceInfo.zero
      else if ¬ goContains line "IOSerialBSDClient" then none
      else st.current
    else st.current
  match findKeyValue line with
  | none => .ok { st with current := cur0 }
  | some (key, rawValue) =>
    let value := goTrimSpace rawValue
    let step1 : Except GoPanic (Option SerialDeviceInfo) :=
      match cur0 with
      | none => .ok none
      | some c =>
        if key = "idVendor" then
          match parseHexValue value with
          | some hexVal => .ok (some { c with Vid := sprintf04X hexVal })
          | none => .ok (some c)
        else if key = "idProduct" then
          match parseHexValue value with
          | some hexVal => .ok (some { c with Pid := sprintf04X hexVal })
          | none => .ok (some c)
        else if key = "USB Serial Number" ∨ key = "kUSBSerialNumberString" then
          match parseStringValue value with
          | none => .error .sliceBounds
          | some sn =>
            if ¬ sn = "" then .ok (some { c with SerialNumber := sn })
            else .ok (some c)
        else .ok (some c)
    match step1 with
    | .error p => .error p
    | .ok cur1 =>
      if key = "IOCalloutDevice" then
        match cur1 with
        | some c =>
          if ¬ c.Vid = "" ∧ ¬ c.Pid = "" then
            match parseStringValue value with
            | none => .error .sliceBounds
            | some portPath =>
              if ¬ portPath = "" then
                if (targetVidUpper = "" ∨ c.Vid = targetVidUpper) ∧
                    (targetPidUpper = "" ∨ c.Pid = targetPidUpper) then
                  .ok { current := cur1,
                        devices := st.devices ++
                          [{ SerialNumber := c.SerialNumber, Vid := c.Vid,
                             Pid := c.Pid, Port := portPath }] }
                else .ok { st with current := cur1 }
              else .ok { st with current := cur1 }
          else .ok { st with current := cur1 }
        | none => .ok { st with current := cur1 }
      else .ok { st with current := cur1 }

/-- The scanner loop: fold `darwinStep` over the lines. -/
def darwinFold (targetVidUpper targetPidUpper : String) :
    List String → DarwinState → Except GoPanic DarwinState
  | [], st => .ok st
  | line :: rest, st =>
    match darwinStep targetVidUpper targetPidUpper st line with
    | .error p => .error p
    | .ok st1 => darwinFold targetVidUpper targetPidUpper rest st1

/-- Call-level errors of the macOS engine. -/
inductive DarwinError where
  | execFailed (msg : String)
  | scanPanic (p : GoPanic)
deriving DecidableEq, Repr

/-- `getSerialDevicesWithExecutor` (serialfinder_darwin.go): the executor
result models `commandExecutor.Execute("ioreg", "-r", "-c",
"IOSerialBSDClient", "-l")` — `.error` a failed command, `.ok out` its
standard output.  A failed command is the call's error; empty output is an
empty device list; otherwise the output is scanned line by line. -/
def getSerialDevicesWithExecutor (vid pid : String)
    (execResult : Except String String) : Except DarwinError (List SerialDeviceInfo) :=
  match execResult with
  | .error e => .error (.execFailed e)
  | .ok ioregOutput =>
    if ioregOutput.data.length = 0 then .ok []
    else
      match darwinFold (goToUpper vid) (goToUpper pid) (goLines ioregOutput)
          { current := none, devices := [] } with
      | .error p => .error (.scanPanic p)
      | .ok st => .ok st.devices

/-! ### The Linux engine (serialfinder_linux.go, reader version) -/

/-- A directory entry as returned by `os.ReadDir`. -/
structure DirEntry where
  name : String
  isDir : Bool
deriving DecidableEq, Repr

/-- Error classification of the `reader.ReadDir` failure, as tested by
`os.IsNotExist` / `os.IsPermission`. -/
inductive ReadDirError where
  | notExist
  | permission
  | other (msg : String)
deriving DecidableEq, Repr

/-- The `fileSystemReader` interface of serialfinder_linux.go, as an explicit
record of pure functions (a system-state snapshot).  `none` models a non-nil
error; `statOk` models a successful `Stat`. -/
structure FileSystemReader where
  readDir : String → Except ReadDirError (List DirEntry)
  evalSymlinks : String → Option String
  readFile : String → Option String
  statOk : String → Bool

/-- Call-level errors of the Linux engine (each wraps the offending paths,
as the Go `fmt.Errorf` messages do). -/
inductive LinuxError where
  | readDirFailed (dir msg : String)
  | readVendorFailed (usbDir symlinkPath : String)
  | readProductFailed (usbDir symlinkPath : String)
deriving DecidableEq, Repr

/-- `checkForVIDPIDFilesWithReader`: both `idVendor` and `idProduct` exist. -/
def checkForVIDPIDFilesWithReader (dir : String) (reader : FileSystemReader) : Bool :=
  reader.statOk (goJoin2 dir "idVendor") && reader.statOk (goJoin2 dir "idProduct")

/-- `findSerialDeviceInfoDirWithReader`: resolve the class-device symlink of
the tty device, then look for the attribute directory at the resolved path,
its parent, and (guardedly) its grandparent. -/
def findSerialDeviceInfoDirWithReader (devicePath : String)
    (reader : FileSystemReader) : String :=
  let sysTTYPath := goJoin3 "/sys/class/tty" (goBase devicePath) "device"
  match reader.evalSymlinks sysTTYPath with
  | none => ""
  | some usbDeviceSysfsPath =>
    if checkForVIDPIDFilesWithReader usbDeviceSysfsPath reader then usbDeviceSysfsPath
    else
      let parentDir := goDir usbDeviceSysfsPath
      if checkForVIDPIDFilesWithReader parentDir reader then parentDir
      else
        let grandparentDir := goDir parentDir
        if ¬ grandparentDir = parentDir ∧ ¬ grandparentDir = "." ∧
            ¬ grandparentDir = "/" then
          if checkForVIDPIDFilesWithReader grandparentDir reader then grandparentDir
          else ""
        else ""

/-- The body of the entry loop of `getSerialDevicesWithReader` for one
directory entry: `.ok none` models `continue`, `.error` the early
`return nil, err`, `.ok (some d)` an appended record. -/
def linuxProcessEntry (reader : FileSystemReader)
    (targetVidUpper targetPidUpper : String) (entry : DirEntry) :
    Except LinuxError (Option SerialDeviceInfo) :=
  if entry.isDir then .ok none
  else
    let symlinkPath := goJoin2 "/dev/serial/by-id" entry.name
    match reader.evalSymlinks symlinkPath with
    | none => .ok none
    | some devicePath =>
      let usbDir := findSerialDeviceInfoDirWithReader devicePath reader
      if usbDir = "" then .ok none
      else
        match reader.readFile (goJoin2 usbDir "idVendor") with
        | none => .error (.readVendorFailed usbDir symlinkPath)
        | some idVendor =>
          match reader.readFile (goJoin2 usbDir "idProduct") with
          | none => .error (.readProductFailed usbDir symlinkPath)
          | some idProduct =>
            let vidStr := goToUpper (goTrimSpace idVendor)
            let pidStr := goToUpper (goTrimSpace idProduct)
            if ¬ targetVidUpper = "" ∧ ¬ vidStr = targetVidUpper then .ok none
            else if ¬ targetPidUpper = "" ∧ ¬ pidStr = targetPidUpper then .ok none
            else
              let serialNumberStr :=
                match reader.readFile (goJoin2 usbDir "serial") with
                | none => ""
                | some serialNumberBytes => goTrimSpace serialNumberBytes
              .ok (some { SerialNumber := serialNumberStr, Vid := vidStr,
                          Pid := pidStr, Port := symlinkPath })

/-- The entry loop of `getSerialDevicesWithReader`: records accumulate in
directory order; the first read failure aborts the whole call, discarding
every record gathered so far. -/
def linuxLoop (reader : FileSystemReader) (targetVidUpper targetPidUpper : String) :
    List DirEntry → Except LinuxError (List SerialDeviceInfo)
  | [] => .ok []
  | entry :: rest =>
    match linuxProcessEntry reader targetVidUpper targetPidUpper entry with
    | .error e => .error e
    | .ok none => linuxLoop reader targetVidUpper targetPidUpper rest
    | .ok (some d) =>
      match linuxLoop reader targetVidUpper targetPidUpper rest with
      | .error e => .error e
      | .ok ds => .ok (d :: ds)

/-- `getSerialDevicesWithReader` (serialfinder_linux.go): list
`/dev/serial/by-id` (a missing or permission-denied directory is an empty
result, any other listing failure the call's error), then process each
entry with the upper-cased filters. -/
def getSerialDevicesWithReader (vid pid : String) (reader : FileSystemReader) :
    Except LinuxError (List SerialDeviceInfo) :=
  match reader.readDir "/dev/serial/by-id" with
  | .error .notExist => .ok []
  | .error .permission => .ok []
  | .error (.other msg) => .error (.readDirFailed "/dev/serial/by-id" msg)
  | .ok entries => linuxLoop reader (goToUpper vid) (goToUpper pid) entries

/-! ### The Windows engine (serialfinder_windows.go) -/

/-- A registry key as seen through the `registryKey` interface:
`ReadSubKeyNames(-1)` and `GetStringValue` results (`.error` / `none`
model non-nil errors). -/
structure WinKey where
  subKeyNames : Except String (List String)
  stringValue : String → Option String

/-- The `registryHandler` interface: open a key by its path below
`LOCAL_MACHINE` (`none` models a non-nil error). -/
structure RegistryHandler where
  openKey : String → Option WinKey

/-- Match of `regexp.MustCompile("VID_([0-9a-fA-F]{4})")`-style patterns:
is `c` a hexadecimal digit character? -/
def isHexDigitChar (c : Char) : Bool :=
  ('0' ≤ c ∧ c ≤ '9') ∨ ('a' ≤ c ∧ c ≤ 'f') ∨ ('A' ≤ c ∧ c ≤ 'F')

/-- Try `tag` followed by exactly four hexadecimal digits at the head of the
list; return the four-digit capture group. -/
def hex4After (tag : List Char) (l : List Char) : Option String :=
  if listIsPrefixOf tag l then
    match l.drop tag.length with
    | a :: b :: c :: d :: _ =>
      if isHexDigitChar a && isHexDigitChar b && isHexDigitChar c && isHexDigitChar d then
        some (String.mk [a, b, c, d])
      else none
    | _ => none
  else none

/-- Leftmost match of `tag` + 4 hex digits anywhere in the list. -/
def findHex4Token (tag : List Char) : List Char → Option String
  | [] => none
  | l@(_ :: rest) =>
    match hex4After tag l with
    | some cap => some cap
    | none => findHex4Token tag rest

/-- `vidRegex.FindStringSubmatch`: the capture of `VID_([0-9a-fA-F]{4})`. -/
def vidRegexFind (s : String) : Option String :=
  findHex4Token ['V', 'I', 'D', '_'] s.data

/-- `pidRegex.FindStringSubmatch`: the capture of `PID_([0-9a-fA-F]{4})`. -/
def pidRegexFind (s : String) : Option String :=
  findHex4Token ['P', 'I', 'D', '_'] s.data

/-- `iterateSerialsWindowsWithRegistry`: open the `Device Parameters` key,
read `PortName`, probe the port; every failure yields the zero record
(which the caller drops), success yields the populated record. -/
def iterateSerialsWindowsWithRegistry (serialNumber deviceInstanceID vid pid
    deviceParamsRegistryPath : String) (rh : RegistryHandler)
    (portCheck : String → Bool) : SerialDeviceInfo :=
  match rh.openKey deviceParamsRegistryPath with
  | none => SerialDeviceInfo.zero
  | some deviceParamsKey =>
    match deviceParamsKey.stringValue "PortName" with
    | none => SerialDeviceInfo.zero
    | some portName =>
      if ¬ portCheck portName then SerialDeviceInfo.zero
      else { SerialNumber := serialNumber, Vid := vid, Pid := pid, Port := portName }

/-- Inner loop over the child subkeys (serial numbers) of one device
instance: append the record only when its `Port` is nonempty. -/
def winChildLoop (rh : RegistryHandler) (portCheck : String → Bool)
    (deviceInstanceID actualVid actualPid fullDeviceInstancePath : String) :
    List String → List SerialDeviceInfo
  | [] => []
  | instanceSubKeyName :: rest =>
    let deviceParamsPath :=
      String.mk (fullDeviceInstancePath.data ++ '\\' :: instanceSubKeyName.data ++
        ('\\' :: "Device Parameters".data))
    let device := iterateSerialsWindowsWithRegistry instanceSubKeyName
      deviceInstanceID actualVid actualPid deviceParamsPath rh portCheck
    if ¬ device.Port = "" then
      device :: winChildLoop rh portCheck deviceInstanceID actualVid actualPid
        fullDeviceInstancePath rest
    else winChildLoop rh portCheck deviceInstanceID actualVid actualPid
      fullDeviceInstancePath rest

/-- Processing of one device instance ID in `getSerialDevicesWithRegistry`:
extract both tokens (skip on either missing), apply the filters, open the
instance key, enumerate its children (skipping on any failure). -/
def winProcessInstance (rh : RegistryHandler) (portCheck : String → Bool)
    (targetVidUpper targetPidUpper deviceInstanceID : String) :
    List SerialDeviceInfo :=
  match vidRegexFind deviceInstanceID with
  | none => []
  | some vidCapture =>
    let actualVid := goToUpper vidCapture
    match pidRegexFind deviceInstanceID with
    | none => []
    | some pidCapture =>
      let actualPid := goToUpper pidCapture
      if ¬ targetVidUpper = "" ∧ ¬ actualVid = targetVidUpper then []
      else if ¬ targetPidUpper = "" ∧ ¬ actualPid = targetPidUpper then []
      else
        let fullDeviceInstancePath :=
          String.mk ("SYSTEM\\CurrentControlSet\\Enum\\USB".data ++
            '\\' :: deviceInstanceID.data)
        match rh.openKey fullDeviceInstancePath with
        | none => []
        | some deviceInstanceRegKey =>
          match deviceInstanceRegKey.subKeyNames with
          | .error _ => []
          | .ok instanceSubKeyNames =>
            winChildLoop rh portCheck deviceInstanceID actualVid actualPid
              fullDeviceInstancePath instanceSubKeyNames

/-- Outer loop of `getSerialDevicesWithRegistry` over the instance IDs. -/
def winInstanceLoop (rh : RegistryHandler) (portCheck : String → Bool)
    (targetVidUpper targetPidUpper : String) : List String → List SerialDeviceInfo
  | [] => []
  | deviceInstanceID :: rest =>
    winProcessInstance rh portCheck targetVidUpper targetPidUpper deviceInstanceID ++
      winInstanceLoop rh portCheck targetVidUpper targetPidUpper rest

/-- Call-level errors of the Windows engine. -/
inductive WinError where
  | enumRootDirectOpenFailed
  | enumRootOpenFailed
  | readInstanceIDsFailed (msg : String)
deriving DecidableEq, Repr

/-- The environment of `getSerialDevicesWithRegistry`: the direct
`registry.OpenKey(LOCAL_MACHINE, Enum\USB)` call of line 88 (`true` =
success), the injected `registryHandler`, and the injected port checker. -/
structure WinEnv where
  directOpenUSBOk : Bool
  rh : RegistryHandler
  portCheck : String → Bool

/-- `getSerialDevicesWithRegistry` (serialfinder_windows.go): open the
enumeration root (twice — once directly, once through the handler; both
failures are fatal), read the instance IDs (failure fatal), then process
every instance; the loop itself never fails the call. -/
def getSerialDevicesWithRegistry (vidFilter pidFilter : String) (env : WinEnv) :
    Except WinError (List SerialDeviceInfo) :=
  let targetVidUpper := goToUpper vidFilter
  let targetPidUpper := goToUpper pidFilter
  if ¬ env.directOpenUSBOk then .error .enumRootDirectOpenFailed
  else
    match env.rh.openKey "SYSTEM\\CurrentControlSet\\Enum\\USB" with
    | none => .error .enumRootOpenFailed
    | some key =>
      match key.subKeyNames with
      | .error e => .error (.readInstanceIDsFailed e)
      | .ok deviceInstanceIDs =>
        .ok (winInstanceLoop env.rh env.portCheck targetVidUpper targetPidUpper
          deviceInstanceIDs)

/-! ### Concrete system states used as counterexamples and witnesses -/

/-- Association-list lookup, used to build concrete filesystem / registry
snapshots. -/
def lkup : List (String × String) → String → Option String
  | [], _ => none
  | (k, v) :: rest, p => if p = k then some v else lkup rest p

/-- Name of the single stable symlink in the concrete Linux states. -/
def byIdEntryName : String := "usb-Foo_123-if00-port0"

/-- The full by-id path of that symlink (the emitted `Port`). -/
def byIdPath1 : String := "/dev/serial/by-id/usb-Foo_123-if00-port0"

/-- A Linux state whose `idVendor` attribute file reads successfully but is
empty, while `idProduct` holds `7523` and the serial attribute is absent. -/
def readerEmptyVendor : FileSystemReader :=
  { readDir := fun _ => .ok [{ name := byIdEntryName, isDir := false }]
    evalSymlinks := lkup [(byIdPath1, "/dev/ttyUSB0"),
      ("/sys/class/tty/ttyUSB0/device", "/sys/devices/usb1/1-1/1-1:1.0")]
    readFile := lkup [("/sys/devices/usb1/1-1/idVendor", ""),
      ("/sys/devices/usb1/1-1/idProduct", "7523\n")]
    statOk := fun p =>
      (["/sys/devices/usb1/1-1/idVendor",
        "/sys/devices/usb1/1-1/idProduct"] : List String).contains p }

/-- A well-formed Linux state: one device with vendor `1a86`, product
`7523`, serial `SER99`. -/
def readerGood : FileSystemReader :=
  { readDir := fun _ => .ok [{ name := byIdEntryName, isDir := false }]
    evalSymlinks := lkup [(byIdPath1, "/dev/ttyUSB0"),
      ("/sys/class/tty/ttyUSB0/device", "/sys/devices/usb1/1-1/1-1:1.0")]
    readFile := lkup [("/sys/devices/usb1/1-1/idVendor", "1a86\n"),
      ("/sys/devices/usb1/1-1/idProduct", "7523\n"),
      ("/sys/devices/usb1/1-1/serial", "SER99\n")]
    statOk := fun p =>
      (["/sys/devices/usb1/1-1/idVendor",
        "/sys/devices/usb1/1-1/idProduct"] : List String).contains p }

/-- `readerGood` with an absent serial attribute file. -/
def readerNoSerial : FileSystemReader :=
  { readerGood with
    readFile := lkup [("/sys/devices/usb1/1-1/idVendor", "1a86\n"),
      ("/sys/devices/usb1/1-1/idProduct", "7523\n")] }

/-- `readerGood` with an unreadable `idVendor` attribute file (its `Stat`
still succeeds, its `ReadFile` fails). -/
def readerVendorUnreadable : FileSystemReader :=
  { readerGood with
    readFile := lkup [("/sys/devices/usb1/1-1/idProduct", "7523\n")] }

/-- `readerGood` with a missing `/dev/serial/by-id` directory. -/
def readerNoDir : FileSystemReader :=
  { readerGood with readDir := fun _ => .error .notExist }

/-- `readerGood` with a permission-denied `/dev/serial/by-id` directory. -/
def readerPermDir : FileSystemReader :=
  { readerGood with readDir := fun _ => .error .permission }

/-- `readerGood` with an I/O failure while listing `/dev/serial/by-id`. -/
def readerBadDir : FileSystemReader :=
  { readerGood with readDir := fun _ => .error (.other "input output error") }

/-- An ioreg dump with one USB device block (idVendor 1155, idProduct 22332,
serial `SERIAL123`) directly followed by its serial client's callout line. -/
def ioregSingleDevice : String :=
  "+-o IOUSBHostDevice  <class IOUSBHostDevice, id 0x100000432, registered>\n" ++
  "  \x7b\n" ++
  "    \"idProduct\" = 22332\n" ++
  "    \"idVendor\" = 1155\n" ++
  "    \"kUSBSerialNumberString\" = \"SERIAL123\"\n" ++
  "  \x7d\n" ++
  "  +-o IOSerialBSDClient  <class IOSerialBSDClient, id 0x100000438, registered>\n" ++
  "    \x7b\n" ++
  "      \"IOCalloutDevice\" = \"/dev/cu.usbmodemSERIAL1231\"\n" ++
  "    \x7d\n"

/-- An ioreg dump whose USB device block carries two serial-number property
lines with distinct nonempty values, `AAA` first, `BBB` second. -/
def ioregTwoSerials : String :=
  "+-o IOUSBHostDevice  <class IOUSBHostDevice, id 0x1, registered>\n" ++
  "    \"idProduct\" = 22332\n" ++
  "    \"idVendor\" = 1155\n" ++
  "    \"USB Serial Number\" = \"AAA\"\n" ++
  "    \"USB Serial Number\" = \"BBB\"\n" ++
  "    \"IOCalloutDevice\" = \"/dev/cu.usbserial-1\"\n"

/-- An ioreg dump whose USB device block carries a nonempty serial-number
line (`AAA`) followed by an empty one under the alternative key. -/
def ioregSerialThenEmpty : String :=
  "+-o IOUSBHostDevice  <class IOUSBHostDevice, id 0x1, registered>\n" ++
  "    \"idProduct\" = 22332\n" ++
  "    \"idVendor\" = 1155\n" ++
  "    \"USB Serial Number\" = \"AAA\"\n" ++
  "    \"kUSBSerialNumberString\" = \"\"\n" ++
  "    \"IOCalloutDevice\" = \"/dev/cu.usbserial-1\"\n"

/-- A registry snapshot with one USB instance `VID_0403&PID_6001` holding a
single child `SER1` whose `PortName` is `COM3`. -/
def winRhOneChild : RegistryHandler :=
  { openKey := fun p =>
      if p = "SYSTEM\\CurrentControlSet\\Enum\\USB" then
        some { subKeyNames := .ok ["VID_0403&PID_6001"], stringValue := lkup [] }
      else if p = "SYSTEM\\CurrentControlSet\\Enum\\USB\\VID_0403&PID_6001" then
        some { subKeyNames := .ok ["SER1"], stringValue := lkup [] }
      else if p = "SYSTEM\\CurrentControlSet\\Enum\\USB\\VID_0403&PID_6001\\SER1\\Device Parameters" then
        some { subKeyNames := .error "no subkeys", stringValue := lkup [("PortName", "COM3")] }
      else none }

/-- The same snapshot with a second child `SER2` bound to `COM4`. -/
def winRhTwoChildren : RegistryHandler :=
  { openKey := fun p =>
      if p = "SYSTEM\\CurrentControlSet\\Enum\\USB" then
        some { subKeyNames := .ok ["VID_0403&PID_6001"], stringValue := lkup [] }
      else if p = "SYSTEM\\CurrentControlSet\\Enum\\USB\\VID_0403&PID_6001" then
        some { subKeyNames := .ok ["SER1", "SER2"], stringValue := lkup [] }
      else if p = "SYSTEM\\CurrentControlSet\\Enum\\USB\\VID_0403&PID_6001\\SER1\\Device Parameters" then
        some { subKeyNames := .error "no subkeys", stringValue := lkup [("PortName", "COM3")] }
      else if p = "SYSTEM\\CurrentControlSet\\Enum\\USB\\VID_0403&PID_6001\\SER2\\Device Parameters" then
        some { subKeyNames := .error "no subkeys", stringValue := lkup [("PortName", "COM4")] }
      else none }

/-! ### Proof-support views of the scanner step and of the Linux entry loop

These definitions recompute fragments of `darwinStep` / `linuxProcessEntry`
so that the filter-independent part of each step can be reasoned about in
isolation; characterization lemmas below prove them equal to the engines. -/

/-- The evolution of `currentUSBDevice` (and any panic) caused by one line,
independent of the filters and of the accumulated device list. -/
def darwinCurNext (cur : Option SerialDeviceInfo) (rawLine : String) :
    Except GoPanic (Option SerialDeviceInfo) :=
  let line := goTrimSpace rawLine
  let cur0 : Option SerialDeviceInfo :=
    if goHasPrefix line "+-o" then
      if goContains line "IOUSBDevice" ∨ goContains line "IOUSBHostDevice" then
        some SerialDeviceInfo.zero
      else if ¬ goContains line "IOSerialBSDClient" then none
      else cur
    else cur
  match findKeyValue line with
  | none => .ok cur0
  | some (key, rawValue) =>
    let value := goTrimSpace rawValue
    let step1 : Except GoPanic (Option SerialDeviceInfo) :=
      match cur0 with
      | none => .ok none
      | some c =>
        if key = "idVendor" then
          match parseHexValue value with
          | some hexVal => .ok (some { c with Vid := sprintf04X hexVal })
          | none => .ok (some c)
        else if key = "idProduct" then
          match parseHexValue value with
          | some hexVal => .ok (some { c with Pid := sprintf04X hexVal })
          | none => .ok (some c)
        else if key = "USB Serial Number" ∨ key = "kUSBSerialNumberString" then
          match parseStringValue value with
          | none => .error .sliceBounds
          | some sn =>
            if ¬ sn = "" then .ok (some { c with SerialNumber := sn })
            else .ok (some c)
        else .ok (some c)
    match step1 with
    | .error p => .error p
    | .ok cur1 =>
      if key = "IOCalloutDevice" then
        match cur1 with
        | some c =>
          if ¬ c.Vid = "" ∧ ¬ c.Pid = "" then
            match parseStringValue value with
            | none => .error .sliceBounds
            | some _ => .ok cur1
          else .ok cur1
        | none => .ok cur1
      else .ok cur1

/-- The record one line would emit before the filter test (`none` when the
line emits nothing), independent of the filters and the device list. -/
def darwinEmitCand (cur : Option SerialDeviceInfo) (rawLine : String) :
    Option SerialDeviceInfo :=
  let line := goTrimSpace rawLine
  let cur0 : Option SerialDeviceInfo :=
    if goHasPrefix line "+-o" then
      if goContains line "IOUSBDevice" ∨ goContains line "IOUSBHostDevice" then
        some SerialDeviceInfo.zero
      else if ¬ goContains line "IOSerialBSDClient" then none
      else cur
    else cur
  match findKeyValue line with
  | none => none
  | some (key, rawValue) =>
    let value := goTrimSpace rawValue
    let step1 : Except GoPanic (Option SerialDeviceInfo) :=
      match cur0 with
      | none => .ok none
      | some c =>
        if key = "idVendor" then
          match parseHexValue value with
          | some hexVal => .ok (some { c with Vid := sprintf04X hexVal })
          | none => .ok (some c)
        else if key = "idProduct" then
          match parseHexValue value with
          | some hexVal => .ok (some { c with Pid := sprintf04X hexVal })
          | none => .ok (some c)
        else if key = "USB Serial Number" ∨ key = "kUSBSerialNumberString" then
          match parseStringValue value with
          | none => .error .sliceBounds
          | some sn =>
            if ¬ sn = "" then .ok (some { c with SerialNumber := sn })
            else .ok (some c)
        else .ok (some c)
    match step1 with
    | .error _ => none
    | .ok cur1 =>
      if key = "IOCalloutDevice" then
        match cur1 with
        | some c =>
          if ¬ c.Vid = "" ∧ ¬ c.Pid = "" then
            match parseStringValue value with
            | none => none
            | some portPath =>
              if ¬ portPath = "" then
                some { SerialNumber := c.SerialNumber, Vid := c.Vid, Pid := c.Pid,
                       Port := portPath }
              else none
          else none
        | none => none
      else none

/-- The filter-independent prefix of `linuxProcessEntry`: everything up to
and including the two attribute reads, before the filter tests. -/
def linuxEntryResolve (reader : FileSystemReader) (entry : DirEntry) :
    Except LinuxError (Option (String × String × String × String)) :=
  if entry.isDir then .ok none
  else
    let symlinkPath := goJoin2 "/dev/serial/by-id" entry.name
    match reader.evalSymlinks symlinkPath with
    | none => .ok none
    | some devicePath =>
      let usbDir := findSerialDeviceInfoDirWithReader devicePath reader
      if usbDir = "" then .ok none
      else
        match reader.readFile (goJoin2 usbDir "idVendor") with
        | none => .error (.readVendorFailed usbDir symlinkPath)
        | some idVendor =>
          match reader.readFile (goJoin2 usbDir "idProduct") with
          | none => .error (.readProductFailed usbDir symlinkPath)
          | some idProduct =>
            .ok (some (goToUpper (goTrimSpace idVendor),
                       goToUpper (goTrimSpace idProduct), usbDir, symlinkPath))

/-! ## Theorems -/

/-! ### Generic helper lemmas -/

/-- `String.mk` and `String.data` are mutually inverse on the nose. -/
theorem string_data_mk (l : List Char) : (String.mk l).data = l := rfl

/-- A `String.mk` is the empty string exactly when its character list is
empty. -/
theorem string_mk_eq_empty (l : List Char) : String.mk l = "" ↔ l = [] := by
  constructor
  · intro h
    have h2 : (String.mk l).data = ("" : String).data := congrArg String.data h
    simpa [string_data_mk] using h2
  · intro h
    subst h
    rfl

/-- Upper-casing preserves (non-)emptiness. -/
theorem goToUpper_ne_empty (s : String) (h : ¬ s = "") : ¬ goToUpper s = "" := by
  intro hu
  apply h
  unfold goToUpper at hu
  rw [string_mk_eq_empty, List.map_eq_nil_iff] at hu
  cases s
  simp_all [string_mk_eq_empty]

/-- Cleaning a rooted path never yields the empty string. -/
theorem goClean_rooted_ne_empty (l : List Char) :
    ¬ goClean (String.mk ('/' :: l)) = "" := by
  intro h
  unfold goClean at h
  rw [string_data_mk] at h
  split at h <;> try simp_all [string_mk_eq_empty]
  rename_i c rest heq
  obtain ⟨h1, h2⟩ := heq
  subst h1
  subst h2
  rw [if_pos rfl] at h
  rw [string_mk_eq_empty] at h
  simp at h

/-- Joining below `/dev/serial/by-id` never yields the empty string: the
`Port` of every Linux record is nonempty. -/
theorem goJoin2_byid_ne_empty (b : String) :
    ¬ goJoin2 "/dev/serial/by-id" b = "" := by
  have hrepr : goJoin2 "/dev/serial/by-id" b =
      goClean (String.mk ('/' :: ("dev/serial/by-id".data ++ '/' :: b.data))) := rfl
  rw [hrepr]
  exact goClean_rooted_ne_empty _

/-- A lookup result is one of the table's values. -/
theorem lkup_mem (t : List (String × String)) (p s : String)
    (h : lkup t p = some s) : s ∈ t.map Prod.snd := by
  induction t with
  | nil => simp [lkup] at h
  | cons kv rest ih =>
    unfold lkup at h
    by_cases hp : p = kv.1
    · simp [hp] at h
      simp [h]
    · simp only [hp, if_neg] at h
      simp only [List.map_cons, List.mem_cons]
      right
      exact ih h

/-! ### C5 — macOS numeric parsing and 4-hex-digit formatting -/

/-- C5: `parseHexValue` followed by `%04X` formatting maps the ioreg value
`1155` (decimal) to `"0483"` and `"0x573C"` to `"573C"`; a trailing comma
is stripped; the base is hexadecimal exactly when a `0x`/`0X` prefix is
present (bare hex digits without the prefix are a parse error) and decimal
otherwise; the rendering is upper-case and zero-padded to 4 hex digits. -/
theorem parseHexValue_format_roundtrip :
    ((parseHexValue "1155").map sprintf04X = some "0483" ∧
      (parseHexValue "0x573C").map sprintf04X = some "573C") ∧
    (parseHexValue "1155" = some 1155 ∧ parseHexValue "0x573C" = some 22332) ∧
    (parseHexValue "1155," = some 1155 ∧ parseHexValue "0x573C," = some 22332) ∧
    (parseHexValue "10" = some 10 ∧ parseHexValue "0x10" = some 16 ∧
      parseHexValue "0X4d2" = some 1234 ∧ parseHexValue "573C" = none ∧
      parseHexValue "ABC" = none ∧ parseHexValue "0x" = none) ∧
    (sprintf04X 1155 = "0483" ∧ sprintf04X 22332 = "573C" ∧
      sprintf04X 1 = "0001" ∧ sprintf04X 65535 = "FFFF") := by
  decide

/-! ### C10 — `parseStringValue` is not total: the single-quote panic -/

/-- C10 (code bug): on the one-character input `"` both the leading-quote
and the trailing-quote checks of `parseStringValue` succeed, so the Go code
evaluates the slice `value[1 : len(value)-1]` with bounds `[1:0]` and
panics (`none` in this model); the intent documented by the repository's
own test (`parseStringValue("\x22") == "\x22"`) and by the claim is to
return normally.  Quoted inputs of length at least 2 do return normally. -/
theorem parseStringValue_single_quote_panics :
    parseStringValue "\"" = none ∧
    (goHasPrefix "\"" "\"" = true ∧ goHasSuffix "\"" "\"" = true) ∧
    (parseStringValue "\"\"" = some "" ∧
      parseStringValue "\"a\"b\"c\"" = some "a\"b\"c" ∧
      parseStringValue "NoQuotes" = some "NoQuotes") := by
  decide

/-! ### C4 — missing or permission-denied by-id directory -/

/-- C4: when listing `/dev/serial/by-id` fails because the directory does
not exist or because permission is denied, `getSerialDevicesWithReader`
returns an empty list and no error; any other listing failure is the
call's error. -/
theorem linux_missing_dir_is_empty_result :
    ∀ vid pid reader,
      (reader.readDir "/dev/serial/by-id" = .error .notExist →
        getSerialDevicesWithReader vid pid reader = .ok []) ∧
      (reader.readDir "/dev/serial/by-id" = .error .permission →
        getSerialDevicesWithReader vid pid reader = .ok []) ∧
      (∀ msg, reader.readDir "/dev/serial/by-id" = .error (.other msg) →
        getSerialDevicesWithReader vid pid reader =
          .error (.readDirFailed "/dev/serial/by-id" msg)) := by
  intro vid pid reader
  refine ⟨?_, ?_, ?_⟩ <;> intro h1 <;> try intro h2
  · unfold getSerialDevicesWithReader
    rw [h1]
  · unfold getSerialDevicesWithReader
    rw [h1]
  all_goals
    unfold getSerialDevicesWithReader
    rw [h2]

/-- Witness for C4 at the three concrete reader states. -/
theorem linux_missing_dir_is_empty_result_witness :
    getSerialDevicesWithReader "" "" readerNoDir = .ok [] ∧
    getSerialDevicesWithReader "" "" readerPermDir = .ok [] ∧
    getSerialDevicesWithReader "" "" readerBadDir =
      .error (.readDirFailed "/dev/serial/by-id" "input output error") :=
  ⟨(linux_missing_dir_is_empty_result "" "" readerNoDir).1 rfl,
   (linux_missing_dir_is_empty_result "" "" readerPermDir).2.1 rfl,
   (linux_missing_dir_is_empty_result "" "" readerBadDir).2.2
     "input output error" rfl⟩

/-! ### Characterization of the Linux entry processing -/

/-- `linuxProcessEntry` factors through the filter-independent
`linuxEntryResolve` followed by the two filter tests and the serial read. -/
theorem linuxProcessEntry_char (reader : FileSystemReader)
    (tv tp : String) (entry : DirEntry) :
    linuxProcessEntry reader tv tp entry =
      match linuxEntryResolve reader entry with
      | .error e => .error e
      | .ok none => .ok none
      | .ok (some (vidStr, pidStr, usbDir, symlinkPath)) =>
        if ¬ tv = "" ∧ ¬ vidStr = tv then .ok none
        else if ¬ tp = "" ∧ ¬ pidStr = tp then .ok none
        else .ok (some { SerialNumber :=
                           (match reader.readFile (goJoin2 usbDir "serial") with
                            | none => ""
                            | some s => goTrimSpace s),
                         Vid := vidStr, Pid := pidStr, Port := symlinkPath }) := by
  unfold linuxProcessEntry linuxEntryResolve
  dsimp only
  repeat' split <;> try rfl

/-- Shape of a successful resolution: the symlink path is the by-id join
and both identifier strings are upper-cased trimmed file contents. -/
theorem linuxEntryResolve_some_shape (reader : FileSystemReader) (entry : DirEntry)
    (v p u sp : String)
    (h : linuxEntryResolve reader entry = .ok (some (v, p, u, sp))) :
    sp = goJoin2 "/dev/serial/by-id" entry.name ∧
    (∃ s, reader.readFile (goJoin2 u "idVendor") = some s ∧
      v = goToUpper (goTrimSpace s)) ∧
    (∃ s, reader.readFile (goJoin2 u "idProduct") = some s ∧
      p = goToUpper (goTrimSpace s)) := by
  unfold linuxEntryResolve at h
  dsimp only at h
  repeat' split at h <;> try simp_all

/-- Whether `linuxProcessEntry` fails does not depend on the filters, and
neither does the error value. -/
theorem linuxProcessEntry_error_indep (reader : FileSystemReader)
    (tv tp tv2 tp2 : String) (entry : DirEntry) (e : LinuxError) :
    linuxProcessEntry reader tv tp entry = .error e ↔
      linuxProcessEntry reader tv2 tp2 entry = .error e := by
  rw [linuxProcessEntry_char, linuxProcessEntry_char]
  cases hr : linuxEntryResolve reader entry with
  | error e2 => simp
  | ok o =>
    cases o with
    | none => simp
    | some t =>
      obtain ⟨v, p, u, sp⟩ := t
      dsimp only
      constructor <;> intro hx <;> (split at hx <;> try split at hx) <;> simp_all

/-- A record accepted under some filters is accepted under empty filters. -/
theorem linuxProcessEntry_some_unfiltered (reader : FileSystemReader)
    (tv tp : String) (entry : DirEntry) (d : SerialDeviceInfo)
    (h : linuxProcessEntry reader tv tp entry = .ok (some d)) :
    linuxProcessEntry reader "" "" entry = .ok (some d) := by
  rw [linuxProcessEntry_char] at h
  rw [linuxProcessEntry_char]
  cases hr : linuxEntryResolve reader entry with
  | error e2 => simp_all
  | ok o =>
    cases o with
    | none => simp_all
    | some t =>
      obtain ⟨v, p, u, sp⟩ := t
      rw [hr] at h
      dsimp only at h ⊢
      rw [if_neg (fun hc => hc.1 rfl), if_neg (fun hc => hc.1 rfl)]
      by_cases h1 : ¬ tv = "" ∧ ¬ v = tv
      · rw [if_pos h1] at h
        exact absurd h (by simp)
      · rw [if_neg h1] at h
        by_cases h2 : ¬ tp = "" ∧ ¬ p = tp
        · rw [if_pos h2] at h
          exact absurd h (by simp)
        · rw [if_neg h2] at h
          exact h

/-- A filtered loop result is a sublist of the unfiltered loop result. -/
theorem linuxLoop_sublist (reader : FileSystemReader) (tv tp : String)
    (entries : List DirEntry) (l : List SerialDeviceInfo)
    (h : linuxLoop reader tv tp entries = .ok l) :
    ∃ l0, linuxLoop reader "" "" entries = .ok l0 ∧ List.Sublist l l0 := by
  induction entries generalizing l with
  | nil =>
    unfold linuxLoop at h
    cases h
    exact ⟨[], rfl, List.Sublist.refl []⟩
  | cons entry rest ih =>
    unfold linuxLoop at h ⊢
    cases hp : linuxProcessEntry reader tv tp entry with
    | error e => rw [hp] at h; cases h
    | ok o =>
      rw [hp] at h
      cases o with
      | none =>
        obtain ⟨l0, hl0, hsub⟩ := ih l h
        cases hq : linuxProcessEntry reader "" "" entry with
        | error e =>
          rw [← linuxProcessEntry_error_indep reader tv tp "" "" entry e] at hq
          rw [hq] at hp
          cases hp
        | ok o2 =>
          cases o2 with
          | none => rw [hl0]; exact ⟨l0, rfl, hsub⟩
          | some d2 =>
            rw [hl0]
            exact ⟨d2 :: l0, rfl, List.Sublist.cons d2 hsub⟩
      | some d =>
        cases hrest : linuxLoop reader tv tp rest with
        | error e => rw [hrest] at h; cases h
        | ok t =>
          rw [hrest] at h
          cases h
          obtain ⟨l0, hl0, hsub⟩ := ih t hrest
          rw [linuxProcessEntry_some_unfiltered reader tv tp entry d hp, hl0]
          exact ⟨d :: l0, rfl, List.Sublist.cons₂ d hsub⟩

/-- Every record of a successful loop result arises from one entry. -/
theorem linuxLoop_mem (reader : FileSystemReader) (tv tp : String)
    (entries : List DirEntry) (l : List SerialDeviceInfo) (d : SerialDeviceInfo)
    (h : linuxLoop reader tv tp entries = .ok l) (hd : d ∈ l) :
    ∃ entry, entry ∈ entries ∧
      linuxProcessEntry reader tv tp entry = .ok (some d) := by
  induction entries generalizing l with
  | nil =>
    unfold linuxLoop at h
    cases h
    cases hd
  | cons entry rest ih =>
    unfold linuxLoop at h
    cases hp : linuxProcessEntry reader tv tp entry with
    | error e => rw [hp] at h; cases h
    | ok o =>
      rw [hp] at h
      cases o with
      | none =>
        obtain ⟨e2, he2, hpe⟩ := ih l h hd
        exact ⟨e2, List.mem_cons_of_mem entry he2, hpe⟩
      | some d1 =>
        cases hrest : linuxLoop reader tv tp rest with
        | error e => rw [hrest] at h; cases h
        | ok t =>
          rw [hrest] at h
          cases h
          rcases List.mem_cons.mp hd with hcase | hcase
          · subst hcase
            exact ⟨entry, List.mem_cons_self entry rest, hp⟩
          · obtain ⟨e2, he2, hpe⟩ := ih t hrest hcase
            exact ⟨e2, List.mem_cons_of_mem entry he2, hpe⟩

/-- If some entry of the listing fails its attribute read, the whole loop
fails. -/
theorem linuxLoop_error_of_entry (reader : FileSystemReader) (tv tp : String)
    (entries : List DirEntry) (entry : DirEntry) (err : LinuxError)
    (hm : entry ∈ entries)
    (he : linuxProcessEntry reader tv tp entry = .error err) :
    ∃ e2, linuxLoop reader tv tp entries = .error e2 := by
  induction entries with
  | nil => cases hm
  | cons hd rest ih =>
    unfold linuxLoop
    rcases List.mem_cons.mp hm with hcase | hcase
    · subst hcase
      rw [he]
      exact ⟨err, rfl⟩
    · cases hp : linuxProcessEntry reader tv tp hd with
      | error e => exact ⟨e, rfl⟩
      | ok o =>
        obtain ⟨e2, he2⟩ := ih hcase
        cases o with
        | none => rw [he2]; exact ⟨e2, rfl⟩
        | some d => rw [he2]; exact ⟨e2, rfl⟩

/-! ### Characterization of the macOS scanner step -/

/-- `darwinStep` factors through the filter-independent context evolution
`darwinCurNext` and emission candidate `darwinEmitCand`; the filters only
decide whether the candidate is appended. -/
theorem darwinStep_char (tv tp : String) (st : DarwinState) (rawLine : String) :
    darwinStep tv tp st rawLine =
      match darwinCurNext st.current rawLine with
      | .error p => .error p
      | .ok cur1 =>
        .ok { current := cur1,
              devices := st.devices ++
                (match darwinEmitCand st.current rawLine with
                 | none => []
                 | some d =>
                   if (tv = "" ∨ d.Vid = tv) ∧ (tp = "" ∨ d.Pid = tp) then [d]
                   else []) } := by
  unfold darwinStep darwinCurNext darwinEmitCand
  dsimp only
  repeat' split <;> try (first | rfl | simp)

/-- The emission candidate always has nonempty Vid, Pid and Port (the
source guards emission on all three). -/
theorem darwinEmitCand_fields (cur : Option SerialDeviceInfo) (rawLine : String)
    (d : SerialDeviceInfo) (h : darwinEmitCand cur rawLine = some d) :
    ¬ d.Vid = "" ∧ ¬ d.Pid = "" ∧ ¬ d.Port = "" := by
  unfold darwinEmitCand at h
  dsimp only at h
  repeat' split at h <;> try simp_all
  obtain ⟨-, ⟨hv, hpid⟩, hsn, hd⟩ := h
  subst hd
  exact ⟨hv, hpid, hsn⟩

/-- One scanner step either keeps the device list or appends one record
with nonempty Vid, Pid and Port. -/
theorem darwinStep_devices (tv tp : String) (st : DarwinState) (rawLine : String)
    (st' : DarwinState) (h : darwinStep tv tp st rawLine = .ok st') :
    st'.devices = st.devices ∨
      ∃ d, st'.devices = st.devices ++ [d] ∧
        ¬ d.Vid = "" ∧ ¬ d.Pid = "" ∧ ¬ d.Port = "" := by
  rw [darwinStep_char] at h
  cases hc : darwinCurNext st.current rawLine with
  | error p => rw [hc] at h; cases h
  | ok cur1 =>
    rw [hc] at h
    cases h
    cases he : darwinEmitCand st.current rawLine with
    | none => left; simp
    | some d =>
      by_cases hf : (tv = "" ∨ d.Vid = tv) ∧ (tp = "" ∨ d.Pid = tp)
      · right
        exact ⟨d, by simp [hf], darwinEmitCand_fields _ _ _ he⟩
      · left
        simp [hf]

/-- Whether a scanner step panics (and with which panic) depends only on
the current context and the line, not on the filters or the device list. -/
theorem darwinStep_error_indep (tv tp tv2 tp2 : String) (st st2 : DarwinState)
    (rawLine : String) (p : GoPanic) (hcur : st.current = st2.current) :
    darwinStep tv tp st rawLine = .error p ↔
      darwinStep tv2 tp2 st2 rawLine = .error p := by
  rw [darwinStep_char, darwinStep_char, hcur]
  cases darwinCurNext st2.current rawLine <;> simp

/-- A filtered step and the unfiltered step started from a related state
stay related: equal contexts, and sublist device lists. -/
theorem darwinStep_filter_rel (tv tp : String) (st stU : DarwinState)
    (rawLine : String) (s1 s2 : DarwinState) (hcur : st.current = stU.current)
    (h1 : darwinStep tv tp st rawLine = .ok s1)
    (h2 : darwinStep "" "" stU rawLine = .ok s2) :
    s1.current = s2.current ∧
      (List.Sublist st.devices stU.devices →
        List.Sublist s1.devices s2.devices) := by
  rw [darwinStep_char] at h1 h2
  rw [hcur] at h1
  cases hc : darwinCurNext stU.current rawLine with
  | error p => rw [hc] at h1; cases h1
  | ok cur1 =>
    rw [hc] at h1 h2
    cases h1
    cases h2
    refine ⟨rfl, ?_⟩
    intro hsub
    cases he : darwinEmitCand stU.current rawLine with
    | none => simpa using hsub
    | some d =>
      dsimp only
      have hTrue : (("" : String) = "" ∨ d.Vid = "") ∧
          (("" : String) = "" ∨ d.Pid = "") := ⟨Or.inl rfl, Or.inl rfl⟩
      rw [if_pos hTrue]
      by_cases hf : (tv = "" ∨ d.Vid = tv) ∧ (tp = "" ∨ d.Pid = tp)
      · rw [if_pos hf]
        exact List.Sublist.append hsub (List.Sublist.refl [d])
      · rw [if_neg hf]
        exact List.Sublist.trans (by simpa using hsub)
          (List.sublist_append_left _ _)

/-- Fold version of `darwinStep_devices`: records accumulated by the
scanner all have nonempty Vid, Pid and Port. -/
theorem darwinFold_devices (tv tp : String) (lines : List String) :
    ∀ st st', darwinFold tv tp lines st = .ok st' →
    (∀ d ∈ st.devices, ¬ d.Vid = "" ∧ ¬ d.Pid = "" ∧ ¬ d.Port = "") →
    ∀ d ∈ st'.devices, ¬ d.Vid = "" ∧ ¬ d.Pid = "" ∧ ¬ d.Port = "" := by
  induction lines with
  | nil =>
    intro st st' h hP
    unfold darwinFold at h
    cases h
    exact hP
  | cons line rest ih =>
    intro st st' h hP
    unfold darwinFold at h
    cases hs : darwinStep tv tp st line with
    | error p => rw [hs] at h; cases h
    | ok st1 =>
      rw [hs] at h
      refine ih st1 st' h ?_
      rcases darwinStep_devices tv tp st line st1 hs with hsame | ⟨d, hd, hP2⟩
      · rw [hsame]
        exact hP
      · rw [hd]
        intro x hx
        rcases List.mem_append.mp hx with hx | hx
        · exact hP x hx
        · simp only [List.mem_singleton] at hx
          subst hx
          exact hP2
/-- Fold version of `darwinStep_filter_rel`. -/
theorem darwinFold_filter (tv tp : String) (lines : List String) :
    ∀ stF stU, stF.current = stU.current →
    List.Sublist stF.devices stU.devices →
    ∀ s1, darwinFold tv tp lines stF = .ok s1 →
    ∃ s2, darwinFold "" "" lines stU = .ok s2 ∧
      List.Sublist s1.devices s2.devices := by
  induction lines with
  | nil =>
    intro stF stU hcur hsub s1 h
    unfold darwinFold at h
    cases h
    exact ⟨stU, rfl, hsub⟩
  | cons line rest ih =>
    intro stF stU hcur hsub s1 h
    unfold darwinFold at h ⊢
    cases hs : darwinStep tv tp stF line with
    | error p => rw [hs] at h; cases h
    | ok st1 =>
      rw [hs] at h
      cases hsU : darwinStep "" "" stU line with
      | error p =>
        rw [← darwinStep_error_indep tv tp "" "" stF stU line p hcur] at hsU
        rw [hsU] at hs
        cases hs
      | ok stU1 =>
        obtain ⟨hc1, hd1⟩ :=
          darwinStep_filter_rel tv tp stF stU line st1 stU1 hcur hs hsU
        exact ih st1 stU1 hc1 (hd1 hsub) s1 h

/-- `goToUpper` of the empty string. -/
theorem goToUpper_empty : goToUpper "" = "" := rfl

/-- Run-level monotonicity for Linux: a filtered call's result list is a
sublist of the unfiltered call's. -/
theorem getReader_sublist (vid pid : String) (reader : FileSystemReader)
    (l l0 : List SerialDeviceInfo)
    (h : getSerialDevicesWithReader vid pid reader = .ok l)
    (h0 : getSerialDevicesWithReader "" "" reader = .ok l0) :
    List.Sublist l l0 := by
  unfold getSerialDevicesWithReader at h h0
  cases hrd : reader.readDir "/dev/serial/by-id" with
  | error e =>
    cases e <;> rw [hrd] at h h0 <;> dsimp only at h h0 <;> cases h <;> cases h0 <;> simp
  | ok entries =>
    rw [hrd] at h h0
    dsimp only at h h0
    rw [goToUpper_empty] at h0
    obtain ⟨l1, hl1, hsub⟩ := linuxLoop_sublist reader _ _ entries l h
    rw [hl1] at h0
    cases h0
    exact hsub

/-- Run-level monotonicity for macOS. -/
theorem getExecutor_sublist (vid pid : String) (execResult : Except String String)
    (l l0 : List SerialDeviceInfo)
    (h : getSerialDevicesWithExecutor vid pid execResult = .ok l)
    (h0 : getSerialDevicesWithExecutor "" "" execResult = .ok l0) :
    List.Sublist l l0 := by
  unfold getSerialDevicesWithExecutor at h h0
  cases execResult with
  | error e => dsimp only at h; cases h
  | ok out =>
    dsimp only at h h0
    by_cases hlen : out.data.length = 0
    · rw [if_pos hlen] at h h0
      cases h
      cases h0
      simp
    · rw [if_neg hlen] at h h0
      rw [goToUpper_empty] at h0
      cases hf : darwinFold (goToUpper vid) (goToUpper pid) (goLines out)
          { current := none, devices := [] } with
      | error p => rw [hf] at h; cases h
      | ok st =>
        rw [hf] at h
        cases h
        obtain ⟨s2, hs2, hsub⟩ := darwinFold_filter (goToUpper vid) (goToUpper pid)
          (goLines out) { current := none, devices := [] }
          { current := none, devices := [] } rfl (List.Sublist.refl []) st hf
        rw [hs2] at h0
        cases h0
        exact hsub

/-! ### C1 — field presence of emitted records -/

/-- C1 (counterexample): a Linux system state whose `idVendor` attribute
file reads successfully but holds only the empty string produces, under
empty filters, a returned record whose `Vid` is the empty string — the
claimed invariant "every returned record has a non-empty Vid" fails. -/
theorem linux_empty_vendor_attribute_emits_empty_vid :
    getSerialDevicesWithReader "" "" readerEmptyVendor =
      .ok [{ SerialNumber := "", Vid := "", Pid := "7523", Port := byIdPath1 }] := by
  rfl

/-- C1 (amended): every record returned by the macOS engine has nonempty
Vid, Pid and Port; every record returned by the Linux engine has a nonempty
Port unconditionally, and nonempty Vid and Pid provided every successfully
read attribute file has non-whitespace content; a device whose serial
attribute is absent is still emitted, with `SerialNumber = ""`. -/
theorem emitted_records_field_presence :
    (∀ vid pid execResult devices,
        getSerialDevicesWithExecutor vid pid execResult = .ok devices →
        ∀ d ∈ devices, ¬ d.Vid = "" ∧ ¬ d.Pid = "" ∧ ¬ d.Port = "") ∧
    (∀ vid pid reader devices,
        (∀ p s, reader.readFile p = some s → ¬ goTrimSpace s = "") →
        getSerialDevicesWithReader vid pid reader = .ok devices →
        ∀ d ∈ devices, ¬ d.Vid = "" ∧ ¬ d.Pid = "" ∧ ¬ d.Port = "") ∧
    (∀ reader tv tp (entry : DirEntry) devicePath,
        entry.isDir = false →
        reader.evalSymlinks (goJoin2 "/dev/serial/by-id" entry.name) =
          some devicePath →
        ¬ findSerialDeviceInfoDirWithReader devicePath reader = "" →
        ∀ idVendor idProduct,
        reader.readFile
          (goJoin2 (findSerialDeviceInfoDirWithReader devicePath reader) "idVendor") =
            some idVendor →
        reader.readFile
          (goJoin2 (findSerialDeviceInfoDirWithReader devicePath reader) "idProduct") =
            some idProduct →
        reader.readFile
          (goJoin2 (findSerialDeviceInfoDirWithReader devicePath reader) "serial") =
            none →
        (tv = "" ∨ goToUpper (goTrimSpace idVendor) = tv) →
        (tp = "" ∨ goToUpper (goTrimSpace idProduct) = tp) →
        linuxProcessEntry reader tv tp entry =
          .ok (some { SerialNumber := "",
                      Vid := goToUpper (goTrimSpace idVendor),
                      Pid := goToUpper (goTrimSpace idProduct),
                      Port := goJoin2 "/dev/serial/by-id" entry.name })) := by
  refine ⟨?_, ?_, ?_⟩
  · intro vid pid execResult devices h d hd
    unfold getSerialDevicesWithExecutor at h
    cases execResult with
    | error e => dsimp only at h; cases h
    | ok out =>
      dsimp only at h
      by_cases hlen : out.data.length = 0
      · rw [if_pos hlen] at h
        cases h
        cases hd
      · rw [if_neg hlen] at h
        cases hf : darwinFold (goToUpper vid) (goToUpper pid) (goLines out)
            { current := none, devices := [] } with
        | error p => rw [hf] at h; cases h
        | ok st =>
          rw [hf] at h
          cases h
          exact darwinFold_devices _ _ _ _ _ hf (by intro d hd; cases hd) d hd
  · intro vid pid reader devices hfiles h d hd
    unfold getSerialDevicesWithReader at h
    cases hrd : reader.readDir "/dev/serial/by-id" with
    | error e =>
      cases e <;> rw [hrd] at h <;> dsimp only at h <;> first
        | (cases h; cases hd)
        | cases h
    | ok entries =>
      rw [hrd] at h
      dsimp only at h
      obtain ⟨entry, hm, hpe⟩ := linuxLoop_mem reader _ _ entries devices d h hd
      rw [linuxProcessEntry_char] at hpe
      cases hr : linuxEntryResolve reader entry with
      | error e => rw [hr] at hpe; cases hpe
      | ok o =>
        rw [hr] at hpe
        cases o with
        | none => cases hpe
        | some t =>
          obtain ⟨v, p, u, sp⟩ := t
          dsimp only at hpe
          obtain ⟨hsp, ⟨sv, hsv, hv⟩, ⟨sp2, hsp2, hp⟩⟩ :=
            linuxEntryResolve_some_shape reader entry v p u sp hr
          split at hpe
          · cases hpe
          · split at hpe
            · cases hpe
            · have hrec := hpe
              simp only [Except.ok.injEq, Option.some.injEq] at hrec
              subst hrec
              refine ⟨?_, ?_, ?_⟩
              · rw [hv]
                exact goToUpper_ne_empty _ (hfiles _ _ hsv)
              · rw [hp]
                exact goToUpper_ne_empty _ (hfiles _ _ hsp2)
              · rw [hsp]
                exact goJoin2_byid_ne_empty _
  · intro reader tv tp entry devicePath hdir hsym husb idVendor idProduct
      hvend hprod hser hfv hfp
    unfold linuxProcessEntry
    dsimp only
    rw [hdir]
    simp only [Bool.false_eq_true, if_false]
    rw [hsym]
    dsimp only
    rw [if_neg husb]
    rw [hvend]
    dsimp only
    rw [hprod]
    dsimp only
    rw [if_neg (fun hc => by
      rcases hfv with hfv | hfv
      · exact hc.1 hfv
      · exact hc.2 hfv)]
    rw [if_neg (fun hc => by
      rcases hfp with hfp | hfp
      · exact hc.1 hfp
      · exact hc.2 hfp)]
    rw [hser]

/-- Witness for C1 at concrete states: a macOS run, a Linux run with
non-whitespace attribute files, and a Linux entry with an absent serial
attribute (emitted with empty `SerialNumber`). -/
theorem emitted_records_field_presence_witness :
    (¬ ({ SerialNumber := "SERIAL123", Vid := "0483", Pid := "573C",
          Port := "/dev/cu.usbmodemSERIAL1231" } : SerialDeviceInfo).Vid = "" ∧
      ¬ ({ SerialNumber := "SERIAL123", Vid := "0483", Pid := "573C",
           Port := "/dev/cu.usbmodemSERIAL1231" } : SerialDeviceInfo).Pid = "" ∧
      ¬ ({ SerialNumber := "SERIAL123", Vid := "0483", Pid := "573C",
           Port := "/dev/cu.usbmodemSERIAL1231" } : SerialDeviceInfo).Port = "") ∧
    (¬ ({ SerialNumber := "SER99", Vid := "1A86", Pid := "7523",
          Port := byIdPath1 } : SerialDeviceInfo).Vid = "" ∧
      ¬ ({ SerialNumber := "SER99", Vid := "1A86", Pid := "7523",
           Port := byIdPath1 } : SerialDeviceInfo).Pid = "" ∧
      ¬ ({ SerialNumber := "SER99", Vid := "1A86", Pid := "7523",
           Port := byIdPath1 } : SerialDeviceInfo).Port = "") ∧
    linuxProcessEntry readerNoSerial "" "" { name := byIdEntryName, isDir := false } =
      .ok (some { SerialNumber := "", Vid := "1A86", Pid := "7523",
                  Port := byIdPath1 }) :=
  ⟨emitted_records_field_presence.1 "" "" (.ok ioregSingleDevice)
      [{ SerialNumber := "SERIAL123", Vid := "0483", Pid := "573C",
         Port := "/dev/cu.usbmodemSERIAL1231" }] rfl
      { SerialNumber := "SERIAL123", Vid := "0483", Pid := "573C",
        Port := "/dev/cu.usbmodemSERIAL1231" } (by simp),
   emitted_records_field_presence.2.1 "" "" readerGood
      [{ SerialNumber := "SER99", Vid := "1A86", Pid := "7523", Port := byIdPath1 }]
      (by
        intro p s hps
        have h2 : lkup [("/sys/devices/usb1/1-1/idVendor", "1a86\n"),
          ("/sys/devices/usb1/1-1/idProduct", "7523\n"),
          ("/sys/devices/usb1/1-1/serial", "SER99\n")] p = some s := hps
        have hm := lkup_mem _ p s h2
        simp only [List.map_cons, List.map_nil, List.mem_cons,
          List.not_mem_nil, or_false] at hm
        rcases hm with hm | hm | hm <;> subst hm <;> decide)
      rfl
      { SerialNumber := "SER99", Vid := "1A86", Pid := "7523", Port := byIdPath1 }
      (by simp),
   emitted_records_field_presence.2.2 readerNoSerial "" ""
      { name := byIdEntryName, isDir := false } "/dev/ttyUSB0" rfl rfl (by decide)
      "1a86\n" "7523\n" rfl rfl rfl (Or.inl rfl) (Or.inl rfl)⟩

/-! ### C2 — case-insensitive filters; empty filters exclude nothing -/

/-- C2: upper-case-equal filter pairs produce identical results on both
the Linux and the macOS engine (filters enter the computation only through
`strings.ToUpper`), and every filtered result list is a sublist of the
empty-filter result list, so an empty filter excludes no device. -/
theorem filters_case_insensitive_and_empty_unrestricted :
    (∀ v1 p1 v2 p2 reader,
        goToUpper v1 = goToUpper v2 → goToUpper p1 = goToUpper p2 →
        getSerialDevicesWithReader v1 p1 reader =
          getSerialDevicesWithReader v2 p2 reader) ∧
    (∀ v1 p1 v2 p2 execResult,
        goToUpper v1 = goToUpper v2 → goToUpper p1 = goToUpper p2 →
        getSerialDevicesWithExecutor v1 p1 execResult =
          getSerialDevicesWithExecutor v2 p2 execResult) ∧
    (∀ vid pid reader l l0,
        getSerialDevicesWithReader vid pid reader = .ok l →
        getSerialDevicesWithReader "" "" reader = .ok l0 →
        List.Sublist l l0) ∧
    (∀ vid pid execResult l l0,
        getSerialDevicesWithExecutor vid pid execResult = .ok l →
        getSerialDevicesWithExecutor "" "" execResult = .ok l0 →
        List.Sublist l l0) := by
  refine ⟨?_, ?_, getReader_sublist, getExecutor_sublist⟩
  · intro v1 p1 v2 p2 reader h1 h2
    unfold getSerialDevicesWithReader
    rw [h1, h2]
  · intro v1 p1 v2 p2 execResult h1 h2
    unfold getSerialDevicesWithExecutor
    rw [h1, h2]

/-- Witness for C2 at concrete states: `"1a86"` versus `"1A86"` (and
`"573c"` versus `"573C"`) give identical results, and filtered results are
sublists of the unfiltered ones. -/
theorem filters_case_insensitive_and_empty_unrestricted_witness :
    getSerialDevicesWithReader "1a86" "7523" readerGood =
      getSerialDevicesWithReader "1A86" "7523" readerGood ∧
    getSerialDevicesWithExecutor "0483" "573c" (.ok ioregSingleDevice) =
      getSerialDevicesWithExecutor "0483" "573C" (.ok ioregSingleDevice) ∧
    List.Sublist
      [({ SerialNumber := "SER99", Vid := "1A86", Pid := "7523",
          Port := byIdPath1 } : SerialDeviceInfo)]
      [({ SerialNumber := "SER99", Vid := "1A86", Pid := "7523",
          Port := byIdPath1 } : SerialDeviceInfo)] ∧
    List.Sublist
      [({ SerialNumber := "SERIAL123", Vid := "0483", Pid := "573C",
          Port := "/dev/cu.usbmodemSERIAL1231" } : SerialDeviceInfo)]
      [({ SerialNumber := "SERIAL123", Vid := "0483", Pid := "573C",
          Port := "/dev/cu.usbmodemSERIAL1231" } : SerialDeviceInfo)] :=
  ⟨filters_case_insensitive_and_empty_unrestricted.1 "1a86" "7523" "1A86" "7523"
      readerGood rfl rfl,
   filters_case_insensitive_and_empty_unrestricted.2.1 "0483" "573c" "0483" "573C"
      (.ok ioregSingleDevice) rfl rfl,
   filters_case_insensitive_and_empty_unrestricted.2.2.1 "1A86" "" readerGood
      [{ SerialNumber := "SER99", Vid := "1A86", Pid := "7523", Port := byIdPath1 }]
      [{ SerialNumber := "SER99", Vid := "1A86", Pid := "7523", Port := byIdPath1 }]
      rfl rfl,
   filters_case_insensitive_and_empty_unrestricted.2.2.2 "0483" ""
      (.ok ioregSingleDevice)
      [{ SerialNumber := "SERIAL123", Vid := "0483", Pid := "573C",
         Port := "/dev/cu.usbmodemSERIAL1231" }]
      [{ SerialNumber := "SERIAL123", Vid := "0483", Pid := "573C",
         Port := "/dev/cu.usbmodemSERIAL1231" }]
      rfl rfl⟩

/-! ### C3 — Linux attribute read failure is fatal for the whole call -/

/-- C3: if any listed entry reaches the attribute-reading step and the
`idVendor` or `idProduct` read fails, the whole call returns an error (the
`Except` result carries no device list alongside the error — no partial
results). -/
theorem linux_attribute_read_failure_is_fatal :
    ∀ reader vid pid entries (entry : DirEntry) devicePath,
      reader.readDir "/dev/serial/by-id" = .ok entries →
      entry ∈ entries →
      entry.isDir = false →
      reader.evalSymlinks (goJoin2 "/dev/serial/by-id" entry.name) =
        some devicePath →
      ¬ findSerialDeviceInfoDirWithReader devicePath reader = "" →
      (reader.readFile
          (goJoin2 (findSerialDeviceInfoDirWithReader devicePath reader) "idVendor") =
            none ∨
        reader.readFile
          (goJoin2 (findSerialDeviceInfoDirWithReader devicePath reader) "idProduct") =
            none) →
      ∃ err, getSerialDevicesWithReader vid pid reader = .error err := by
  intro reader vid pid entries entry devicePath hrd hm hdir hsym husb hfail
  have hres : ∃ err, linuxEntryResolve reader entry = .error err := by
    unfold linuxEntryResolve
    dsimp only
    rw [hdir]
    simp only [Bool.false_eq_true, if_false]
    rw [hsym]
    dsimp only
    rw [if_neg husb]
    cases hv : reader.readFile
        (goJoin2 (findSerialDeviceInfoDirWithReader devicePath reader) "idVendor") with
    | none =>
      exact ⟨_, rfl⟩
    | some sv =>
      dsimp only
      rcases hfail with hfail | hfail
      · rw [hfail] at hv
        cases hv
      · rw [hfail]
        exact ⟨_, rfl⟩
  obtain ⟨err, herr⟩ := hres
  have hpe : linuxProcessEntry reader (goToUpper vid) (goToUpper pid) entry =
      .error err := by
    rw [linuxProcessEntry_char, herr]
  obtain ⟨e2, he2⟩ :=
    linuxLoop_error_of_entry reader (goToUpper vid) (goToUpper pid) entries entry
      err hm hpe
  refine ⟨e2, ?_⟩
  unfold getSerialDevicesWithReader
  rw [hrd]
  dsimp only
  exact he2

/-- Witness for C3: a state whose `idVendor` file is unreadable makes the
whole call fail. -/
theorem linux_attribute_read_failure_is_fatal_witness :
    ∃ err, getSerialDevicesWithReader "" "" readerVendorUnreadable = .error err :=
  linux_attribute_read_failure_is_fatal readerVendorUnreadable "" ""
    [{ name := byIdEntryName, isDir := false }]
    { name := byIdEntryName, isDir := false } "/dev/ttyUSB0" rfl (by simp) rfl rfl
    (by decide) (Or.inl rfl)

/-! ### C6 — the unfiltered result is a (Vid, Pid) superset -/

/-- C6: for every state, every (Vid, Pid) pair present in a filtered result
is present in the empty-filter result, on both the Linux and the macOS
engine: filtering never adds devices, it only narrows. -/
theorem empty_filter_result_superset :
    (∀ vid pid reader l l0,
        getSerialDevicesWithReader vid pid reader = .ok l →
        getSerialDevicesWithReader "" "" reader = .ok l0 →
        ∀ d ∈ l, ∃ d0, d0 ∈ l0 ∧ d0.Vid = d.Vid ∧ d0.Pid = d.Pid) ∧
    (∀ vid pid execResult l l0,
        getSerialDevicesWithExecutor vid pid execResult = .ok l →
        getSerialDevicesWithExecutor "" "" execResult = .ok l0 →
        ∀ d ∈ l, ∃ d0, d0 ∈ l0 ∧ d0.Vid = d.Vid ∧ d0.Pid = d.Pid) := by
  constructor
  · intro vid pid reader l l0 h h0 d hd
    exact ⟨d, (getReader_sublist vid pid reader l l0 h h0).subset hd, rfl, rfl⟩
  · intro vid pid execResult l l0 h h0 d hd
    exact ⟨d, (getExecutor_sublist vid pid execResult l l0 h h0).subset hd, rfl, rfl⟩

/-- Witness for C6 at concrete states. -/
theorem empty_filter_result_superset_witness :
    (∃ d0,
        d0 ∈ [({ SerialNumber := "SER99", Vid := "1A86", Pid := "7523",
                 Port := byIdPath1 } : SerialDeviceInfo)] ∧
        d0.Vid = "1A86" ∧ d0.Pid = "7523") ∧
    (∃ d0,
        d0 ∈ [({ SerialNumber := "SERIAL123", Vid := "0483", Pid := "573C",
                 Port := "/dev/cu.usbmodemSERIAL1231" } : SerialDeviceInfo)] ∧
        d0.Vid = "0483" ∧ d0.Pid = "573C") :=
  ⟨empty_filter_result_superset.1 "1a86" "7523" readerGood
      [{ SerialNumber := "SER99", Vid := "1A86", Pid := "7523", Port := byIdPath1 }]
      [{ SerialNumber := "SER99", Vid := "1A86", Pid := "7523", Port := byIdPath1 }]
      rfl rfl
      { SerialNumber := "SER99", Vid := "1A86", Pid := "7523", Port := byIdPath1 }
      (by simp),
   empty_filter_result_superset.2 "0483" "573C" (.ok ioregSingleDevice)
      [{ SerialNumber := "SERIAL123", Vid := "0483", Pid := "573C",
         Port := "/dev/cu.usbmodemSERIAL1231" }]
      [{ SerialNumber := "SERIAL123", Vid := "0483", Pid := "573C",
         Port := "/dev/cu.usbmodemSERIAL1231" }]
      rfl rfl
      { SerialNumber := "SERIAL123", Vid := "0483", Pid := "573C",
        Port := "/dev/cu.usbmodemSERIAL1231" } (by simp)⟩

/-! ### C7 — Windows liveness probe failures skip the record only -/

/-- Witness shape of `iterateSerialsWindowsWithRegistry`: it returns either
the zero record or a record carrying exactly the given serial, vid, pid and
the read port name. -/
theorem iterateSerials_shape (serialNumber deviceInstanceID vid pid path : String)
    (rh : RegistryHandler) (portCheck : String → Bool) :
    iterateSerialsWindowsWithRegistry serialNumber deviceInstanceID vid pid path
        rh portCheck = SerialDeviceInfo.zero ∨
      ∃ portName,
        iterateSerialsWindowsWithRegistry serialNumber deviceInstanceID vid pid path
          rh portCheck =
        { SerialNumber := serialNumber, Vid := vid, Pid := pid, Port := portName } := by
  unfold iterateSerialsWindowsWithRegistry
  cases rh.openKey path with
  | none => exact Or.inl rfl
  | some k =>
    dsimp only
    cases k.stringValue "PortName" with
    | none => exact Or.inl rfl
    | some pn =>
      dsimp only
      by_cases hpc : portCheck pn = true
      · right
        exact ⟨pn, by simp [hpc]⟩
      · left
        simp [hpc]

/-- Every record kept by the child loop carries the instance's vid/pid. -/
theorem winChildLoop_mem (rh : RegistryHandler) (portCheck : String → Bool)
    (deviceInstanceID av ap path : String) (children : List String)
    (d : SerialDeviceInfo)
    (hd : d ∈ winChildLoop rh portCheck deviceInstanceID av ap path children) :
    d.Vid = av ∧ d.Pid = ap := by
  induction children with
  | nil => cases hd
  | cons child rest ih =>
    unfold winChildLoop at hd
    dsimp only at hd
    split at hd
    · rcases List.mem_cons.mp hd with hcase | hcase
      · subst hcase
        rename_i hport
        rcases iterateSerials_shape child deviceInstanceID av ap _ rh portCheck with
          hz | ⟨pn, hpn⟩
        · rw [hz] at hport
          exact absurd rfl hport
        · rw [hpn]
          exact ⟨rfl, rfl⟩
      · exact ih hcase
    · exact ih hd

/-- C7: on Windows, a device instance whose `PortName` reads successfully
but whose open/close liveness probe fails yields the zero record, which the
caller drops; the call still returns the remaining devices with no error.
In the single-device scenario an active probe yields exactly one record
whose `Port` is the port name and an inactive probe yields zero records. -/
theorem windows_inactive_port_skipped :
    (∀ serialNumber deviceInstanceID vid pid path rh portCheck k portName,
        rh.openKey path = some k →
        k.stringValue "PortName" = some portName →
        portCheck portName = false →
        iterateSerialsWindowsWithRegistry serialNumber deviceInstanceID vid pid
          path rh portCheck = SerialDeviceInfo.zero) ∧
    (getSerialDevicesWithRegistry "" ""
        { directOpenUSBOk := true, rh := winRhOneChild, portCheck := fun _ => true } =
      .ok [{ SerialNumber := "SER1", Vid := "0403", Pid := "6001", Port := "COM3" }]) ∧
    (getSerialDevicesWithRegistry "" ""
        { directOpenUSBOk := true, rh := winRhOneChild, portCheck := fun _ => false } =
      .ok []) ∧
    (getSerialDevicesWithRegistry "" ""
        { directOpenUSBOk := true, rh := winRhTwoChildren,
          portCheck := fun p => p = "COM3" } =
      .ok [{ SerialNumber := "SER1", Vid := "0403", Pid := "6001", Port := "COM3" }]) := by
  refine ⟨?_, rfl, rfl, rfl⟩
  intro serialNumber deviceInstanceID vid pid path rh portCheck k portName hk hpn hpc
  unfold iterateSerialsWindowsWithRegistry
  rw [hk]
  dsimp only
  rw [hpn]
  dsimp only
  simp [hpc]

/-- Witness for C7: in the two-children state, the `SER2`/`COM4` child whose
probe fails yields the zero record. -/
theorem windows_inactive_port_skipped_witness :
    iterateSerialsWindowsWithRegistry "SER2" "VID_0403&PID_6001" "0403" "6001"
      "SYSTEM\\CurrentControlSet\\Enum\\USB\\VID_0403&PID_6001\\SER2\\Device Parameters"
      winRhTwoChildren (fun p => p = "COM3") = SerialDeviceInfo.zero :=
  windows_inactive_port_skipped.1 "SER2" "VID_0403&PID_6001" "0403" "6001"
    "SYSTEM\\CurrentControlSet\\Enum\\USB\\VID_0403&PID_6001\\SER2\\Device Parameters"
    winRhTwoChildren (fun p => p = "COM3")
    { subKeyNames := .error "no subkeys", stringValue := lkup [("PortName", "COM4")] }
    "COM4" rfl rfl (by decide)

/-! ### C8 — unparsable instance IDs are skipped; independent token matches -/

/-- C8: a device instance whose ID lacks a `VID_xxxx` or a `PID_xxxx`
token contributes no record and no error (removing it from the enumeration
does not change the result); when both tokens are present, the two
independent regex matches determine the record's Vid/Pid (upper-cased),
regardless of the text separating or ordering the tokens. -/
theorem windows_unparsable_instance_id_skipped :
    (∀ rh portCheck tv tp deviceInstanceID,
        vidRegexFind deviceInstanceID = none ∨
          pidRegexFind deviceInstanceID = none →
        winProcessInstance rh portCheck tv tp deviceInstanceID = []) ∧
    (∀ rh portCheck tv tp ids1 ids2 badId,
        vidRegexFind badId = none ∨ pidRegexFind badId = none →
        winInstanceLoop rh portCheck tv tp (ids1 ++ badId :: ids2) =
          winInstanceLoop rh portCheck tv tp (ids1 ++ ids2)) ∧
    (∀ rh portCheck tv tp deviceInstanceID v p,
        vidRegexFind deviceInstanceID = some v →
        pidRegexFind deviceInstanceID = some p →
        ∀ d ∈ winProcessInstance rh portCheck tv tp deviceInstanceID,
          d.Vid = goToUpper v ∧ d.Pid = goToUpper p) ∧
    (vidRegexFind "USB\\VID_1a86&PID_7523" = some "1a86" ∧
      pidRegexFind "USB\\VID_1a86&PID_7523" = some "7523") ∧
    (vidRegexFind "VID_1A86xyzwPID_7523" = some "1A86" ∧
      pidRegexFind "VID_1A86xyzwPID_7523" = some "7523") ∧
    (vidRegexFind "PID_7523zzVID_1a86" = some "1a86" ∧
      pidRegexFind "PID_7523zzVID_1a86" = some "7523") ∧
    (vidRegexFind "USBPID_7523" = none ∧ pidRegexFind "USB\\VID_1A86" = none) := by
  have hskip : ∀ rh portCheck tv tp deviceInstanceID,
      vidRegexFind deviceInstanceID = none ∨
        pidRegexFind deviceInstanceID = none →
      winProcessInstance rh portCheck tv tp deviceInstanceID = [] := by
    intro rh portCheck tv tp deviceInstanceID hbad
    unfold winProcessInstance
    rcases hbad with hbad | hbad
    · rw [hbad]
    · rw [hbad]
      cases vidRegexFind deviceInstanceID <;> rfl
  refine ⟨hskip, ?_, ?_, by decide, by decide, by decide, by decide⟩
  · intro rh portCheck tv tp ids1 ids2 badId hbad
    induction ids1 with
    | nil =>
      simp only [List.nil_append]
      show winProcessInstance rh portCheck tv tp badId ++
          winInstanceLoop rh portCheck tv tp ids2 =
        winInstanceLoop rh portCheck tv tp ids2
      rw [hskip rh portCheck tv tp badId hbad]
      simp
    | cons a rest ih =>
      show winProcessInstance rh portCheck tv tp a ++
          winInstanceLoop rh portCheck tv tp (rest ++ badId :: ids2) =
        winProcessInstance rh portCheck tv tp a ++
          winInstanceLoop rh portCheck tv tp (rest ++ ids2)
      rw [ih]
  · intro rh portCheck tv tp deviceInstanceID v p hv hp d hd
    unfold winProcessInstance at hd
    rw [hv] at hd
    dsimp only at hd
    rw [hp] at hd
    dsimp only at hd
    repeat' split at hd <;> try (exact absurd hd (List.not_mem_nil d))
    exact winChildLoop_mem _ _ _ _ _ _ _ _ hd

/-- Witness for C8: a token-free ID contributes nothing, removing it from
the enumeration preserves the result, and both tokens of a parsable ID end
up (upper-cased) in the emitted record. -/
theorem windows_unparsable_instance_id_skipped_witness :
    winProcessInstance winRhOneChild (fun _ => true) "" "" "USB-NOTOKEN" = [] ∧
    winInstanceLoop winRhOneChild (fun _ => true) "" ""
        (["VID_0403&PID_6001"] ++ "USB-NOTOKEN" :: []) =
      winInstanceLoop winRhOneChild (fun _ => true) "" ""
        (["VID_0403&PID_6001"] ++ []) ∧
    (({ SerialNumber := "SER1", Vid := "0403", Pid := "6001",
        Port := "COM3" } : SerialDeviceInfo).Vid = goToUpper "0403" ∧
      ({ SerialNumber := "SER1", Vid := "0403", Pid := "6001",
         Port := "COM3" } : SerialDeviceInfo).Pid = goToUpper "6001") :=
  ⟨windows_unparsable_instance_id_skipped.1 winRhOneChild (fun _ => true) "" ""
      "USB-NOTOKEN" (Or.inl (by decide)),
   windows_unparsable_instance_id_skipped.2.1 winRhOneChild (fun _ => true) "" ""
      ["VID_0403&PID_6001"] [] "USB-NOTOKEN" (Or.inl (by decide)),
   windows_unparsable_instance_id_skipped.2.2.1 winRhOneChild (fun _ => true) "" ""
      "VID_0403&PID_6001" "0403" "6001" rfl rfl
      { SerialNumber := "SER1", Vid := "0403", Pid := "6001", Port := "COM3" }
      (by decide)⟩

/-! ### C9 — repeated serial-number lines in one USB context -/

/-- C9 (counterexample): with two nonempty serial-number property lines,
`"AAA"` first and `"BBB"` second, inside one USB device context, the
emitted record carries `"BBB"` — the later nonempty value overwrites the
earlier one, so the first-seen nonempty value is not the one kept. -/
theorem darwin_serial_later_nonempty_overwrites :
    getSerialDevicesWithExecutor "" "" (.ok ioregTwoSerials) =
      .ok [{ SerialNumber := "BBB", Vid := "0483", Pid := "573C",
             Port := "/dev/cu.usbserial-1" }] ∧
    ¬ ("BBB" : String) = "AAA" :=
  ⟨rfl, by decide⟩

/-- C9 (amended): within one USB device context the last-seen nonempty
serial-number value is kept: a serial-number property line (under either
recognized key) whose parsed value is empty leaves the scanner state
completely unchanged, while a later nonempty value overwrites an earlier
one. -/
theorem darwin_serial_last_nonempty_kept :
    (∀ tv tp (st : DarwinState) rawLine key rawValue,
        goHasPrefix (goTrimSpace rawLine) "+-o" = false →
        findKeyValue (goTrimSpace rawLine) = some (key, rawValue) →
        (key = "USB Serial Number" ∨ key = "kUSBSerialNumberString") →
        parseStringValue (goTrimSpace rawValue) = some "" →
        darwinStep tv tp st rawLine = .ok st) ∧
    (getSerialDevicesWithExecutor "" "" (.ok ioregSerialThenEmpty) =
      .ok [{ SerialNumber := "AAA", Vid := "0483", Pid := "573C",
             Port := "/dev/cu.usbserial-1" }]) ∧
    (getSerialDevicesWithExecutor "" "" (.ok ioregTwoSerials) =
      .ok [{ SerialNumber := "BBB", Vid := "0483", Pid := "573C",
             Port := "/dev/cu.usbserial-1" }]) := by
  refine ⟨?_, rfl, rfl⟩
  intro tv tp st rawLine key rawValue hpre hkv hkey hps
  unfold darwinStep
  dsimp only
  rw [hpre]
  simp only [Bool.false_eq_true, if_false]
  rw [hkv]
  dsimp only
  cases hc : st.current with
  | none =>
    dsimp only
    rcases hkey with hk | hk <;> subst hk <;>
      rw [if_neg (by decide)] <;>
      rw [← hc]
  | some c =>
    dsimp only
    rcases hkey with hk | hk <;> subst hk
    · rw [if_neg (show ¬ ("USB Serial Number" = "idVendor") by decide),
        if_neg (show ¬ ("USB Serial Number" = "idProduct") by decide),
        if_pos (Or.inl rfl)]
      rw [hps]
      dsimp only
      rw [if_neg (show ¬ ¬ ("" : String) = "" by simp)]
      dsimp only
      rw [if_neg (show ¬ ("USB Serial Number" = "IOCalloutDevice") by decide)]
      obtain ⟨cur, devs⟩ := st
      simp only at hc
      subst hc
      rfl
    · rw [if_neg (show ¬ ("kUSBSerialNumberString" = "idVendor") by decide),
        if_neg (show ¬ ("kUSBSerialNumberString" = "idProduct") by decide),
        if_pos (Or.inr rfl)]
      rw [hps]
      dsimp only
      rw [if_neg (show ¬ ¬ ("" : String) = "" by simp)]
      dsimp only
      rw [if_neg (show ¬ ("kUSBSerialNumberString" = "IOCalloutDevice") by decide)]
      obtain ⟨cur, devs⟩ := st
      simp only at hc
      subst hc
      rfl

/-- Witness for C9 at a concrete state and line: an empty value under the
alternative serial key leaves the state with serial `"KEEP"` unchanged. -/
theorem darwin_serial_last_nonempty_kept_witness :
    darwinStep "" ""
      { current := some { SerialNumber := "KEEP", Vid := "0483", Pid := "573C",
                          Port := "" },
        devices := [] }
      "  \"kUSBSerialNumberString\" = \"\"" =
      .ok { current := some { SerialNumber := "KEEP", Vid := "0483", Pid := "573C",
                              Port := "" },
            devices := [] } :=
  darwin_serial_last_nonempty_kept.1 "" ""
    { current := some { SerialNumber := "KEEP", Vid := "0483", Pid := "573C",
                        Port := "" },
      devices := [] }
    "  \"kUSBSerialNumberString\" = \"\"" "kUSBSerialNumberString" "\"\""
    (by decide) (by decide) (Or.inr rfl) (by decide)
